import Mathlib

/-!
Verification development for the jwt-auth-example server: a shallow embedding
of its refresh-token lifecycle (src/utils/jwt.ts, the auth controller,
src/utils/tokenCleanup.ts) together with theorems about the rotation,
revocation and expiry-sweeping behaviour.

Conventions of the embedding:
* All times are integers in milliseconds (JS `Date.now()` scale); a signed
  token's `exp` is stored on the same scale.
* The Prisma `refreshToken` table is a list of records threaded explicitly
  through every operation; `prisma.refreshToken.create` fails on a duplicate
  id (unique-constraint error P2002) and `prisma.refreshToken.delete` fails
  when no record matches (P2025), exactly as the Prisma client does.
* `process.env` is a `Config` record of optional strings.
* A JSON web token is either a payload signed with some secret, or a
  malformed string; `jwt.verify` checks the secret and the expiry,
  `jwt.decode` extracts the payload without any check.
* async functions that catch internally are total Lean functions; functions
  whose JS counterpart can throw return `Except String`.
-/

namespace JwtAuth

/-- A row of the Prisma `refreshToken` table: `{id, userId, createdAt}`. -/
structure RefreshTokenRecord where
  id : String
  userId : String
  createdAt : Int
deriving Repr, DecidableEq

/-- The Prisma `refreshToken` table. -/
abbrev Store := List RefreshTokenRecord

/-- `prisma.refreshToken.findUnique({where: {id}})`: a read, no mutation. -/
def findUnique (store : Store) (id : String) : Option RefreshTokenRecord :=
  store.find? (fun r => r.id == id)

/-- `prisma.refreshToken.create({data})`: fails (P2002) when a record with the
same id already exists, otherwise adds the record. -/
def prismaCreate (store : Store) (r : RefreshTokenRecord) : Except String Store :=
  if (findUnique store r.id).isSome then
    Except.error "P2002: unique constraint failed"
  else
    Except.ok (r :: store)

/-- `prisma.refreshToken.delete({where: {id}})`: throws P2025 when no record
with that id exists, otherwise removes it. -/
def prismaDelete (store : Store) (id : String) : Except String Store :=
  if (findUnique store id).isSome then
    Except.ok (store.filter (fun r => r.id ≠ id))
  else
    Except.error "P2025: record to delete does not exist"

/-- `prisma.refreshToken.deleteMany({where})`: removes every record matching
the predicate and reports how many were removed. -/
def prismaDeleteMany (store : Store) (p : RefreshTokenRecord → Bool) : Nat × Store :=
  ((store.filter p).length, store.filter (fun r => !(p r)))

/-- The claims of a token of this service: `{userId}` plus the optional
standard `jti` claim and the `exp` claim set from `expiresIn`. -/
structure JwtClaims where
  userId : String
  jti : Option String
  exp : Int
deriving Repr, DecidableEq

/-- A JSON web token: a payload signed with a secret, or a malformed string. -/
inductive Token where
  | signed (claims : JwtClaims) (secret : String)
  | malformed (raw : String)
deriving Repr, DecidableEq

/-- `jwt.sign(payload, secret, options)` (jsonwebtoken). -/
def jwtSign (claims : JwtClaims) (secret : String) : Token :=
  Token.signed claims secret

/-- `jwt.verify(token, secret)` (jsonwebtoken): rejects a malformed token, a
wrong signature, and an expired token (`exp ≤ now`); otherwise yields the
payload. -/
def jwtVerify (token : Token) (secret : String) (now : Int) : Except String JwtClaims :=
  match token with
  | Token.malformed _ => Except.error "JsonWebTokenError: jwt malformed"
  | Token.signed c s =>
    if s ≠ secret then Except.error "JsonWebTokenError: invalid signature"
    else if c.exp ≤ now then Except.error "TokenExpiredError: jwt expired"
    else Except.ok c

/-- `jwt.decode(token)` (jsonwebtoken): extracts the payload without
verifying the signature; `null` on a malformed token. -/
def jwtDecode (token : Token) : Option JwtClaims :=
  match token with
  | Token.signed c _ => some c
  | Token.malformed _ => none

/-- Value of a list of decimal digit characters, most significant first. -/
def digitsToNat (cs : List Char) : Nat :=
  cs.foldl (fun acc c => acc * 10 + (c.toNat - 48)) 0

/-- Models the `ms` duration parser of the vercel/ms package, which
jsonwebtoken applies to a string `expiresIn` option, restricted to
non-negative integer values with an optional unit suffix and no inner
spaces (`"1d"`, `"5m"`, `"30s"`, `"300"`, ...): the value in milliseconds,
or `none` (jwt.sign then throws) when the string does not parse. -/
def msParse (s : String) : Option Int :=
  let cs := s.data
  let digits := cs.takeWhile Char.isDigit
  let unit := cs.drop digits.length
  if digits.isEmpty then none
  else
    let v : Int := (digitsToNat digits : Nat)
    if unit = [] then some v
    else if unit = ['m', 's'] then some v
    else if unit = ['s'] then some (v * 1000)
    else if unit = ['m'] then some (v * 60000)
    else if unit = ['h'] then some (v * 3600000)
    else if unit = ['d'] then some (v * 86400000)
    else if unit = ['w'] then some (v * 604800000)
    else if unit = ['y'] then some (v * 31557600000)
    else none

/-- The environment variables the token code reads (`process.env`). -/
structure Config where
  jwtSecret : Option String
  jwtRefreshSecret : Option String
  jwtLifetime : Option String
  jwtRefreshLifetime : Option String
deriving Repr, DecidableEq

/-- `const JWT_EXPIRATION_TIME = process.env.JWT_LIFETIME || '5m'`. -/
def JWT_EXPIRATION_TIME (cfg : Config) : String :=
  cfg.jwtLifetime.getD "5m"

/-- `const JWT_REFRESH_EXPIRATION_TIME = process.env.JWT_REFRESHLIFETIME || '1d'`. -/
def JWT_REFRESH_EXPIRATION_TIME (cfg : Config) : String :=
  cfg.jwtRefreshLifetime.getD "1d"

/-- `generateToken(userId)` of src/utils/jwt.ts: throws when JWT_SECRET is
missing, otherwise signs `{userId}` with expiry `JWT_EXPIRATION_TIME`. -/
def generateToken (cfg : Config) (now : Int) (userId : String) : Except String Token :=
  match cfg.jwtSecret with
  | none => Except.error "JWT_SECRET is not defined"
  | some secret =>
    match msParse (JWT_EXPIRATION_TIME cfg) with
    | none => Except.error "jwt.sign: invalid expiresIn"
    | some d => Except.ok (jwtSign { userId := userId, jti := none, exp := now + d } secret)

/-- `TokenType` of src/types/jwt.ts. -/
inductive TokenType where
  | access
  | refresh
deriving Repr, DecidableEq

/-- `verifyToken(token, type)` of src/utils/jwt.ts: picks the secret for the
token type (refresh tokens use JWT_REFRESH_SECRET, access tokens JWT_SECRET),
throws when it is missing, then `jwt.verify`. -/
def verifyToken (cfg : Config) (now : Int) (token : Token) (ty : TokenType) :
    Except String JwtClaims :=
  let secret? := match ty with
    | TokenType.refresh => cfg.jwtRefreshSecret
    | TokenType.access => cfg.jwtSecret
  match secret? with
  | none => Except.error "Secret for tokens is not defined"
  | some secret => jwtVerify token secret now

/-- `generateRefreshToken(userId)` of src/utils/jwt.ts: throws when
JWT_REFRESH_SECRET is missing; otherwise draws a fresh `jti`
(`crypto.randomUUID()`, passed in here as the `jti` argument), creates the
store record `{id: jti, userId}` via Prisma, and only then signs `{userId}`
with the `jti` claim and expiry `JWT_REFRESH_EXPIRATION_TIME`. The store is
returned alongside the result because the function mutates it. -/
def generateRefreshToken (cfg : Config) (now : Int) (jti : String) (userId : String)
    (store : Store) : Except String Token × Store :=
  match cfg.jwtRefreshSecret with
  | none => (Except.error "JWT_REFRESH_SECRET is not defined", store)
  | some secret =>
    match prismaCreate store { id := jti, userId := userId, createdAt := now } with
    | Except.error e => (Except.error e, store)
    | Except.ok store' =>
      match msParse (JWT_REFRESH_EXPIRATION_TIME cfg) with
      | none => (Except.error "jwt.sign: invalid expiresIn", store')
      | some d =>
        (Except.ok (jwtSign { userId := userId, jti := some jti, exp := now + d } secret),
         store')

/-- `verifyRefreshToken(token)` of src/utils/jwt.ts: signature/expiry check
with the refresh secret, then a `jti` presence check, then a store lookup;
every failure is caught and collapsed to `null`. The (unchanged) store is
returned to make the frame behaviour explicit. -/
def verifyRefreshToken (cfg : Config) (now : Int) (token : Token) (store : Store) :
    Option String × Store :=
  match verifyToken cfg now token TokenType.refresh with
  | Except.error _ => (none, store)
  | Except.ok payload =>
    match payload.jti with
    | none => (none, store)
    | some id =>
      match findUnique store id with
      | none => (none, store)
      | some _ => (some payload.userId, store)

/-- `invalidateRefreshToken(token)` of src/utils/jwt.ts: `jwt.decode` without
signature verification, then delete by `jti`; `false` when the token does not
decode, carries no `jti`, or the Prisma delete throws (record absent). -/
def invalidateRefreshToken (token : Token) (store : Store) : Bool × Store :=
  match jwtDecode token with
  | none => (false, store)
  | some payload =>
    match payload.jti with
    | none => (false, store)
    | some id =>
      match prismaDelete store id with
      | Except.error _ => (false, store)
      | Except.ok store' => (true, store')

/-- `invalidateAllUserRefreshTokens(userId)` of src/utils/jwt.ts. -/
def invalidateAllUserRefreshTokens (userId : String) (store : Store) : Bool × Store :=
  (true, store.filter (fun r => !(r.userId == userId)))

/-- An HTTP response as the controllers produce it: the status code and the
message (or, on a success that carries a token, the marker `"token"` for the
`{token: accessToken}` body). -/
structure HttpResponse where
  status : Nat
  message : String
deriving Repr, DecidableEq

/-- A row of the Prisma `user` table (`password` is the bcrypt hash). -/
structure User where
  id : String
  email : String
  password : String
deriving Repr, DecidableEq

/-- Models the bcrypt collaborator (spec treats password hashing as a
black-box one-way hash): `bcrypt.compare(password, hash)`. -/
def bcryptCompare (password hash : String) : Bool :=
  hash == "bcrypt$" ++ password

/-- `userRepository.findByEmail(email)`. -/
def findByEmail (users : List User) (email : String) : Option User :=
  users.find? (fun u => u.email == email)

/-- `login` of the auth controller: 401 "Invalid email" when no user has the
email, 401 "Invalid password" when the bcrypt compare fails, otherwise mint
an access token and a refresh token (the latter persists a store record) and
answer 200; thrown errors become 500. `newJti` is the UUID
`generateRefreshToken` draws on the success path. -/
def login (cfg : Config) (now : Int) (newJti : String) (users : List User)
    (email password : String) (store : Store) : HttpResponse × Store :=
  match findByEmail users email with
  | none => ({ status := 401, message := "Invalid email" }, store)
  | some user =>
    if !(bcryptCompare password user.password) then
      ({ status := 401, message := "Invalid password" }, store)
    else
      match generateToken cfg now user.id with
      | Except.error _ => ({ status := 500, message := "Internal server error" }, store)
      | Except.ok _accessToken =>
        match generateRefreshToken cfg now newJti user.id store with
        | (Except.error _, store') =>
          ({ status := 500, message := "Internal server error" }, store')
        | (Except.ok _refreshToken, store') =>
          ({ status := 200, message := "token" }, store')

/-- The tail of `refreshAccessToken` after the `await verifyRefreshToken`
round-trip: the 401 on a failed verification, else
`await invalidateRefreshToken` (result ignored by the controller), then
`generateToken`, then `await generateRefreshToken`, 200 on success and 500
when one of the generators throws. Split out so that an interleaving of two
concurrent requests can be expressed at the handler's await points. -/
def rotateAfterVerify (cfg : Config) (now : Int) (newJti : String)
    (userId? : Option String) (token : Token) (store : Store) : HttpResponse × Store :=
  match userId? with
  | none => ({ status := 401, message := "Unauthorized. Refresh token invalid" }, store)
  | some userId =>
    let (_, store1) := invalidateRefreshToken token store
    match generateToken cfg now userId with
    | Except.error _ => ({ status := 500, message := "Internal server error" }, store1)
    | Except.ok _accessToken =>
      match generateRefreshToken cfg now newJti userId store1 with
      | (Except.error _, store2) =>
        ({ status := 500, message := "Internal server error" }, store2)
      | (Except.ok _newRefreshToken, store2) =>
        ({ status := 200, message := "token" }, store2)

/-- `refreshAccessToken` of the auth controller: 401 "Unauthorized" when the
refresh cookie is missing, else verify (a pure store read), then the rotation
tail `rotateAfterVerify`. -/
def refreshAccessToken (cfg : Config) (now : Int) (newJti : String)
    (cookie : Option Token) (store : Store) : HttpResponse × Store :=
  match cookie with
  | none => ({ status := 401, message := "Unauthorized" }, store)
  | some token =>
    let (userId?, store0) := verifyRefreshToken cfg now token store
    rotateAfterVerify cfg now newJti userId? token store0

/-- `logout` of the auth controller: best-effort invalidation when the cookie
is present, then 200 regardless. -/
def logout (cookie : Option Token) (store : Store) : HttpResponse × Store :=
  match cookie with
  | none => ({ status := 200, message := "Logged out successfully" }, store)
  | some token =>
    let (_, store') := invalidateRefreshToken token store
    ({ status := 200, message := "Logged out successfully" }, store')

/-- Two concurrent `refreshAccessToken` requests presenting the same cookie,
under the interleaving in which both handlers complete their
`await verifyRefreshToken` (a pure read) before either reaches
`await invalidateRefreshToken`; afterwards request A runs to completion,
then request B. Each handler's own steps run in program order, so this is a
legal schedule of the two async handlers. -/
def rotateRace (cfg : Config) (now : Int) (jtiA jtiB : String) (token : Token)
    (store : Store) : HttpResponse × HttpResponse × Store :=
  let (uidA?, s1) := verifyRefreshToken cfg now token store
  let (uidB?, s2) := verifyRefreshToken cfg now token s1
  let (respA, s3) := rotateAfterVerify cfg now jtiA uidA? token s2
  let (respB, s4) := rotateAfterVerify cfg now jtiB uidB? token s3
  (respA, respB, s4)

/-- A JS whitespace character as `parseInt` skips it (the common four). -/
def jsWhitespace (c : Char) : Bool :=
  c == ' ' || c == '\t' || c == '\n' || c == '\r'

/-- Models JS `parseInt(s)` (radix 10) on a list of characters: skip leading
whitespace, optional sign, then the longest leading digit run; `none` is
`NaN` (no digits found); trailing junk is ignored. -/
def jsParseInt (cs : List Char) : Option Int :=
  let t := cs.dropWhile jsWhitespace
  let signAndRest : Int × List Char :=
    match t with
    | [] => (1, t)
    | c :: rest => if c = '-' then (-1, rest) else if c = '+' then (1, rest) else (1, t)
  let digits := signAndRest.2.takeWhile Char.isDigit
  if digits.isEmpty then none
  else some (signAndRest.1 * (digitsToNat digits : Nat))

/-- `parseDuration` of src/utils/tokenCleanup.ts:
`unit = duration.charAt(duration.length - 1)`,
`value = parseInt(duration.slice(0, -1))`, then a switch over the unit with a
silent 7-day default; `none` is the JS `NaN` (value failed to parse while the
unit was recognised). -/
def parseDuration (duration : String) : Option Int :=
  let cs := duration.data
  let unit? := cs.getLast?
  let value := jsParseInt cs.dropLast
  if unit? = some 's' then value.map (fun v => v * 1000)
  else if unit? = some 'm' then value.map (fun v => v * 60 * 1000)
  else if unit? = some 'h' then value.map (fun v => v * 60 * 60 * 1000)
  else if unit? = some 'd' then value.map (fun v => v * 24 * 60 * 60 * 1000)
  else some (7 * 24 * 60 * 60 * 1000)

/-- `const refreshLifetime = process.env.JWT_REFRESHLIFETIME || '7d'` of
src/utils/tokenCleanup.ts (note the default differs from the codec's). -/
def REFRESH_LIFETIME_STRING (cfg : Config) : String :=
  cfg.jwtRefreshLifetime.getD "7d"

/-- `new Date(Date.now() - lifetimeMs)` of the sweeper: `none` when
`lifetimeMs` is `NaN`, making the cutoff an invalid date. -/
def sweepCutoff (cfg : Config) (now : Int) : Option Int :=
  (parseDuration (REFRESH_LIFETIME_STRING cfg)).map (fun lifetimeMs => now - lifetimeMs)

/-- `cleanupExpiredTokens()` of src/utils/tokenCleanup.ts: delete every
record with `createdAt` strictly before the cutoff and return the count; when
the cutoff is an invalid date the Prisma call throws, the catch logs and
returns 0 with the store untouched. -/
def cleanupExpiredTokens (cfg : Config) (now : Int) (store : Store) : Nat × Store :=
  match sweepCutoff cfg now with
  | none => (0, store)
  | some cutoff => prismaDeleteMany store (fun r => decide (r.createdAt < cutoff))

/-- The refresh lifetime the sweeper computes staleness from. -/
def sweeperLifetimeMs (cfg : Config) : Option Int :=
  parseDuration (REFRESH_LIFETIME_STRING cfg)

/-- The refresh expiry the refresh codec signs tokens with, in the same
milliseconds scale (the `ms` parse jsonwebtoken applies to
`JWT_REFRESH_EXPIRATION_TIME`). -/
def codecLifetimeMs (cfg : Config) : Option Int :=
  msParse (JWT_REFRESH_EXPIRATION_TIME cfg)

/-- A concrete environment: both secrets set, both lifetimes left to their
defaults. -/
def cfg0 : Config :=
  { jwtSecret := some "as", jwtRefreshSecret := some "rs",
    jwtLifetime := none, jwtRefreshLifetime := none }

/-- A concrete freshly issued refresh token: subject u1, jti j1, expiry one
day (the codec default) after epoch. -/
def tok0 : Token :=
  Token.signed { userId := "u1", jti := some "j1", exp := 86400000 } "rs"

/-- A store holding exactly tok0's record. -/
def store0 : Store :=
  [{ id := "j1", userId := "u1", createdAt := 0 }]

/-- A concrete registered user (password hash of "pw"). -/
def user0 : User :=
  { id := "u1", email := "a@x.com", password := "bcrypt$pw" }

/-- An environment whose JWT_REFRESHLIFETIME is the malformed string "xd". -/
def cfgXd : Config :=
  { jwtSecret := none, jwtRefreshSecret := none,
    jwtLifetime := none, jwtRefreshLifetime := some "xd" }

/-- An environment whose JWT_REFRESHLIFETIME is "2d". -/
def cfg2d : Config :=
  { jwtSecret := none, jwtRefreshSecret := none,
    jwtLifetime := none, jwtRefreshLifetime := some (String.mk (['2'] ++ ['d'])) }

/-- An environment with no variable set at all. -/
def cfgNoLifetime : Config :=
  { jwtSecret := none, jwtRefreshSecret := none,
    jwtLifetime := none, jwtRefreshLifetime := none }

/-! ## Helper lemmas -/

theorem findUnique_filter_none (store : Store) (p : RefreshTokenRecord → Bool)
    (x : String) (h : findUnique store x = none) :
    findUnique (store.filter p) x = none := by
  unfold findUnique at h ⊢
  rw [List.find?_eq_none] at h ⊢
  intro y hy
  exact h y (List.mem_filter.mp hy).1

theorem findUnique_delete_self (store : Store) (id : String) (store' : Store)
    (h : prismaDelete store id = Except.ok store') :
    findUnique store' id = none := by
  unfold prismaDelete at h
  split at h
  · injection h with h'
    subst h'
    unfold findUnique
    rw [List.find?_eq_none]
    intro y hy
    have hmem := (List.mem_filter.mp hy).2
    simp only [decide_eq_true_eq] at hmem
    simp [hmem]
  · cases h

theorem findUnique_cons_ne (a : RefreshTokenRecord) (s : Store) (x : String)
    (h : a.id ≠ x) : findUnique (a :: s) x = findUnique s x := by
  unfold findUnique
  have hbeq : (a.id == x) = false := beq_eq_false_iff_ne.mpr h
  rw [List.find?_cons, hbeq]

theorem prismaCreate_ok (store : Store) (rec : RefreshTokenRecord) (store' : Store)
    (h : prismaCreate store rec = Except.ok store') : store' = rec :: store := by
  unfold prismaCreate at h
  split at h
  · cases h
  · injection h with h
    exact h.symm

theorem generateRefreshToken_store_mono (cfg : Config) (now : Int) (jti userId : String)
    (store : Store) :
    ∀ r ∈ store, r ∈ (generateRefreshToken cfg now jti userId store).2 := by
  intro r hr
  unfold generateRefreshToken
  split
  · exact hr
  · split
    · exact hr
    · rename_i store' hcr
      have h := prismaCreate_ok _ _ _ hcr
      subst h
      split
      · exact List.mem_cons_of_mem _ hr
      · exact List.mem_cons_of_mem _ hr

theorem verifyRefreshToken_store_eq (cfg : Config) (now : Int) (token : Token)
    (store : Store) : (verifyRefreshToken cfg now token store).2 = store := by
  unfold verifyRefreshToken
  split
  · rfl
  · split
    · rfl
    · split <;> rfl

theorem verifyRefreshToken_fst_error {cfg : Config} {now : Int} {token : Token}
    {e : String} (store : Store)
    (h : verifyToken cfg now token TokenType.refresh = Except.error e) :
    (verifyRefreshToken cfg now token store).1 = none := by
  unfold verifyRefreshToken
  simp [h]

theorem verifyRefreshToken_fst_nojti {cfg : Config} {now : Int} {token : Token}
    {p : JwtClaims} (store : Store)
    (h : verifyToken cfg now token TokenType.refresh = Except.ok p)
    (hj : p.jti = none) :
    (verifyRefreshToken cfg now token store).1 = none := by
  unfold verifyRefreshToken
  simp [h, hj]

theorem verifyRefreshToken_fst_norecord {cfg : Config} {now : Int} {token : Token}
    {p : JwtClaims} {id : String} {store : Store}
    (h : verifyToken cfg now token TokenType.refresh = Except.ok p)
    (hj : p.jti = some id) (hf : findUnique store id = none) :
    (verifyRefreshToken cfg now token store).1 = none := by
  unfold verifyRefreshToken
  simp [h, hj, hf]

theorem verifyRefreshToken_fst_ok {cfg : Config} {now : Int} {token : Token}
    {p : JwtClaims} {id : String} {store : Store} {r : RefreshTokenRecord}
    (h : verifyToken cfg now token TokenType.refresh = Except.ok p)
    (hj : p.jti = some id) (hf : findUnique store id = some r) :
    (verifyRefreshToken cfg now token store).1 = some p.userId := by
  unfold verifyRefreshToken
  simp [h, hj, hf]

theorem findUnique_filter_ne_self (store : Store) (j : String) :
    findUnique (store.filter (fun r => r.id ≠ j)) j = none := by
  unfold findUnique
  rw [List.find?_eq_none]
  intro y hy
  have h := (List.mem_filter.mp hy).2
  simp only [decide_eq_true_eq] at h
  simp [h]

theorem prismaDelete_error {store : Store} {id e : String}
    (h : prismaDelete store id = Except.error e) : findUnique store id = none := by
  unfold prismaDelete at h
  split at h
  · cases h
  · rename_i hcond
    cases hf : findUnique store id
    · rfl
    · rw [hf] at hcond
      simp at hcond

theorem prismaDelete_ok_isSome {store : Store} {id : String} {store' : Store}
    (h : prismaDelete store id = Except.ok store') :
    (findUnique store id).isSome = true := by
  unfold prismaDelete at h
  split at h
  · rename_i hcond
    exact hcond
  · cases h

theorem prismaDelete_isSome {store : Store} {id : String}
    (h : (findUnique store id).isSome = true) :
    prismaDelete store id = Except.ok (store.filter (fun r => r.id ≠ id)) := by
  unfold prismaDelete
  rw [if_pos h]

/-! ## Claim theorems -/

/-- C6: verifying a refresh token never mutates the credential store — for
every token and store state, `verifyRefreshToken` (signature check plus id
lookup) leaves the store exactly as it was; `login`'s mutation, by contrast,
only ever adds a record and removes none, so removal is confined to
rotation, logout, logout-all and the sweeper. -/
theorem verify_never_mutates_store (cfg : Config) (now : Int) (token : Token)
    (store : Store) :
    (verifyRefreshToken cfg now token store).2 = store
    ∧ ∀ (jti : String) (users : List User) (email pw : String),
        ∀ r ∈ store, r ∈ (login cfg now jti users email pw store).2 := by
  refine ⟨verifyRefreshToken_store_eq cfg now token store, ?_⟩
  intro jti users email pw r hr
  unfold login
  split
  · exact hr
  · rename_i user huser
    split
    · exact hr
    · split
      · exact hr
      · split <;>
        · rename_i hgen
          have h := generateRefreshToken_store_mono cfg now jti user.id store r hr
          rw [hgen] at h
          exact h

/-- C10: `verifyRefreshToken` is total (a Lean function, never throws: every
JS failure is caught and collapsed to null) and returns the owning userId
exactly when the signature and expiry verify against the refresh secret, the
payload carries a `jti`, and a store record with that id exists — `none` in
every other case, so callers cannot distinguish why verification failed. -/
theorem verifyRefreshToken_characterization (cfg : Config) (now : Int)
    (token : Token) (store : Store) (uid : String) :
    (verifyRefreshToken cfg now token store).1 = some uid
      ↔ ∃ c id, verifyToken cfg now token TokenType.refresh = Except.ok c
          ∧ c.jti = some id ∧ (findUnique store id).isSome ∧ uid = c.userId := by
  constructor
  · intro h
    rcases hv : verifyToken cfg now token TokenType.refresh with e | p
    · rw [verifyRefreshToken_fst_error store hv] at h
      cases h
    · rcases hj : p.jti with _ | id
      · rw [verifyRefreshToken_fst_nojti store hv hj] at h
        cases h
      · rcases hf : findUnique store id with _ | r
        · rw [verifyRefreshToken_fst_norecord hv hj hf] at h
          cases h
        · rw [verifyRefreshToken_fst_ok hv hj hf] at h
          exact ⟨p, id, rfl, hj, by rw [hf]; rfl, (Option.some.inj h).symm⟩
  · rintro ⟨c, id, hc, hjti, hfind, rfl⟩
    rcases hf : findUnique store id with _ | r
    · rw [hf] at hfind
      cases hfind
    · rw [verifyRefreshToken_fst_ok hc hjti hf]

/-- C2 counterexample: issuing a refresh token does NOT leave the credential
store unchanged — `generateRefreshToken` itself performs the Prisma create,
so issuing from the empty store leaves a record behind. -/
theorem generateRefreshToken_touches_storage :
    (generateRefreshToken cfg0 0 "j1" "u1" []).2 ≠ ([] : Store) := by decide

/-- C2 amended: `generateRefreshToken` generates a fresh identifier and
persists it itself — with the refresh secret configured, a fresh jti and a
parseable refresh expiry, it first creates the record `{id: jti, userId,
createdAt: now}` in the store and then returns the token signing
`{userId, jti}`; persistence is the codec's doing, not the caller's. -/
theorem generateRefreshToken_persists (cfg : Config) (now : Int)
    (jti userId : String) (store : Store) (secret : String) (d : Int)
    (hsec : cfg.jwtRefreshSecret = some secret)
    (hfresh : findUnique store jti = none)
    (hexp : msParse (JWT_REFRESH_EXPIRATION_TIME cfg) = some d) :
    generateRefreshToken cfg now jti userId store
      = (Except.ok (Token.signed
            { userId := userId, jti := some jti, exp := now + d } secret),
         { id := jti, userId := userId, createdAt := now } :: store) := by
  simp [generateRefreshToken, hsec, prismaCreate, hfresh, hexp, jwtSign]

/-- C2 amended witness at a concrete input. -/
theorem generateRefreshToken_persists_witness :
    generateRefreshToken cfg0 0 "j1" "u1" []
      = (Except.ok (Token.signed
            { userId := "u1", jti := some "j1", exp := 0 + 86400000 } "rs"),
         [{ id := "j1", userId := "u1", createdAt := 0 }]) :=
  generateRefreshToken_persists cfg0 0 "j1" "u1" [] "rs" 86400000 rfl rfl (by decide)

/-- C3 counterexample: the response body does reveal which check failed —
an unknown email and a wrong password both yield 401 but with different
messages. -/
theorem login_message_reveals_failed_check :
    (login cfg0 0 "j9" [user0] "b@x.com" "pw" []).1
        = { status := 401, message := "Invalid email" }
    ∧ (login cfg0 0 "j9" [user0] "a@x.com" "wrong" []).1
        = { status := 401, message := "Invalid password" }
    ∧ ({ status := 401, message := "Invalid email" } : HttpResponse)
        ≠ { status := 401, message := "Invalid password" } := by decide

/-- C3 amended: every authentication failure is surfaced with status 401, but
the bodies are check-specific: login answers "Invalid email" when the email
is unknown and "Invalid password" when the bcrypt compare fails; refresh
answers "Unauthorized" when the cookie is missing and "Unauthorized. Refresh
token invalid" when verification fails — so the body does reveal which check
failed. -/
theorem auth_failures_401_with_specific_messages (cfg : Config) (now : Int)
    (newJti : String) :
    (∀ users email pw store, findByEmail users email = none →
        login cfg now newJti users email pw store
          = ({ status := 401, message := "Invalid email" }, store))
    ∧ (∀ users email pw store user, findByEmail users email = some user →
        bcryptCompare pw user.password = false →
        login cfg now newJti users email pw store
          = ({ status := 401, message := "Invalid password" }, store))
    ∧ (∀ store, refreshAccessToken cfg now newJti none store
          = ({ status := 401, message := "Unauthorized" }, store))
    ∧ (∀ token store, (verifyRefreshToken cfg now token store).1 = none →
        refreshAccessToken cfg now newJti (some token) store
          = ({ status := 401, message := "Unauthorized. Refresh token invalid" },
             store)) := by
  refine ⟨?_, ?_, ?_, ?_⟩
  · intro users email pw store h
    simp [login, h]
  · intro users email pw store user hfound hcmp
    simp [login, hfound, hcmp]
  · intro store
    rfl
  · intro token store h
    have hpair : verifyRefreshToken cfg now token store = (none, store) := by
      rw [Prod.ext_iff]
      exact ⟨h, verifyRefreshToken_store_eq cfg now token store⟩
    simp [refreshAccessToken, hpair, rotateAfterVerify]

/-- C4 counterexample: revoking the same token twice does not return success
both times — the second `invalidateRefreshToken` finds no record, the Prisma
delete throws (P2025), and the function returns false. -/
theorem revoke_twice_not_both_success :
    (invalidateRefreshToken tok0 store0).1 = true
    ∧ (invalidateRefreshToken tok0 (invalidateRefreshToken tok0 store0).2).1
        = false := by decide

/-- C4 amended: revocation decodes the token without signature verification
and deletes the record if present, but `invalidateRefreshToken` returns true
exactly when the token decodes with a `jti` and a store record with that id
existed — false otherwise, so a second revocation of the same token returns
false; the HTTP logout endpoint nevertheless answers 200 regardless. -/
theorem invalidateRefreshToken_spec (token : Token) (store : Store) :
    ((invalidateRefreshToken token store).1 = true
      ↔ ∃ c id, jwtDecode token = some c ∧ c.jti = some id
          ∧ (findUnique store id).isSome = true)
    ∧ (∀ c id, jwtDecode token = some c → c.jti = some id →
        (findUnique store id).isSome = true →
        (invalidateRefreshToken token store).2
          = store.filter (fun r => r.id ≠ id))
    ∧ (∀ cookie s, (logout cookie s).1
          = { status := 200, message := "Logged out successfully" }) := by
  refine ⟨?_, ?_, ?_⟩
  · unfold invalidateRefreshToken
    split
    · rename_i hd
      simp [hd]
    · rename_i payload hd
      split
      · rename_i hj
        simp [hd, hj]
      · rename_i id hj
        split
        · rename_i e hdel
          simp [hd, hj, Option.isSome_iff_exists, prismaDelete_error hdel]
        · rename_i store' hdel
          simp [hd, hj, prismaDelete_ok_isSome hdel]
  · intro c id hd hj hsome
    simp [invalidateRefreshToken, hd, hj, prismaDelete_isSome hsome]
  · intro cookie s
    rcases cookie with _ | token'
    · rfl
    · rcases h : invalidateRefreshToken token' s with ⟨b, s'⟩
      simp [logout, h]

/-- C7: each sweep run computes `cutoff = now - refreshLifetime`, returns the
count of the records whose `created_at` is strictly before the cutoff (and
deletes exactly those), and a record survives the sweep exactly when it was
in the store with `created_at` inside the lifetime window. -/
theorem cleanupExpiredTokens_correct (cfg : Config) (now : Int) (store : Store)
    (m : Int) (h : parseDuration (REFRESH_LIFETIME_STRING cfg) = some m) :
    (cleanupExpiredTokens cfg now store).1
        = (store.filter (fun r => decide (r.createdAt < now - m))).length
    ∧ ∀ r : RefreshTokenRecord,
        r ∈ (cleanupExpiredTokens cfg now store).2
          ↔ r ∈ store ∧ now - m ≤ r.createdAt := by
  have hcut : sweepCutoff cfg now = some (now - m) := by
    unfold sweepCutoff
    rw [h]
    rfl
  unfold cleanupExpiredTokens
  rw [hcut]
  unfold prismaDeleteMany
  refine ⟨rfl, ?_⟩
  intro r
  rw [List.mem_filter]
  simp [not_lt]

/-- C7 witness: with the default 7-day lifetime, sweeping at t = 700000000 ms
deletes store0's epoch-created record. -/
theorem cleanupExpiredTokens_correct_witness :
    (cleanupExpiredTokens cfg0 700000000 store0).1
        = (store0.filter (fun r => decide (r.createdAt < 700000000 - 604800000))).length
    ∧ ∀ r : RefreshTokenRecord,
        r ∈ (cleanupExpiredTokens cfg0 700000000 store0).2
          ↔ r ∈ store0 ∧ 700000000 - 604800000 ≤ r.createdAt :=
  cleanupExpiredTokens_correct cfg0 700000000 store0 604800000 (by decide)

/-- C9: the sweeper's duration parser is silently total over unit errors but
not value errors — any string whose final character is not s, m, h or d
parses to the 7-day default (604800000 ms) with no error reported, while a
recognised unit with a non-numeric value part ("xd") yields NaN, making the
computed sweep cutoff an invalid date. -/
theorem parseDuration_silent_unit_fallback (s : String)
    (hs : s.data.getLast? ≠ some 's') (hm : s.data.getLast? ≠ some 'm')
    (hh : s.data.getLast? ≠ some 'h') (hd : s.data.getLast? ≠ some 'd') :
    parseDuration s = some 604800000
    ∧ parseDuration "xd" = none
    ∧ sweepCutoff cfgXd 0 = none := by
  refine ⟨?_, by decide, by decide⟩
  simp only [parseDuration]
  rw [if_neg hs, if_neg hm, if_neg hh, if_neg hd]
  norm_num

/-- C9 witness: "10q" has an unrecognised unit and falls back to 7 days. -/
theorem parseDuration_silent_unit_fallback_witness :
    parseDuration "10q" = some 604800000
    ∧ parseDuration "xd" = none
    ∧ sweepCutoff cfgXd 0 = none :=
  parseDuration_silent_unit_fallback "10q"
    (by decide) (by decide) (by decide) (by decide)

/-- C5 counterexample: with JWT_REFRESHLIFETIME unset, the sweeper's
staleness lifetime (fallback "7d" = 604800000 ms) differs from the refresh
expiry the codec signs with (fallback "1d" = 86400000 ms). -/
theorem sweeper_codec_lifetime_default_mismatch :
    sweeperLifetimeMs cfg0 = some 604800000
    ∧ codecLifetimeMs cfg0 = some 86400000
    ∧ sweeperLifetimeMs cfg0 ≠ codecLifetimeMs cfg0 := by decide

theorem digit_not_jsWhitespace {c : Char} (h : c.isDigit = true) :
    jsWhitespace c = false := by
  cases hb : jsWhitespace c
  · rfl
  · exfalso
    unfold jsWhitespace at hb
    simp only [Bool.or_eq_true, beq_iff_eq] at hb
    rcases hb with ((rfl | rfl) | rfl) | rfl <;> exact absurd h (by decide)

theorem digit_ne_char {c d : Char} (h : c.isDigit = true) (hd : d.isDigit = false) :
    ¬ (c = d) := by
  intro heq
  subst heq
  rw [h] at hd
  cases hd

theorem takeWhile_all_eq {p : Char → Bool} {l : List Char}
    (h : ∀ c ∈ l, p c = true) : l.takeWhile p = l :=
  List.takeWhile_eq_self_iff.mpr h

theorem takeWhile_append_singleton {p : Char → Bool} (ds : List Char) (u : Char)
    (hds : ∀ c ∈ ds, p c = true) (hu : p u = false) :
    (ds ++ [u]).takeWhile p = ds := by
  induction ds with
  | nil => simp [List.takeWhile_cons, hu]
  | cons c cs ih =>
    have hc := hds c (List.mem_cons_self c cs)
    have ih' := ih (fun x hx => hds x (List.mem_cons_of_mem c hx))
    simp [List.takeWhile_cons, hc, ih']

theorem jsParseInt_digits (ds : List Char) (hne : ds ≠ [])
    (hds : ∀ c ∈ ds, c.isDigit = true) :
    jsParseInt ds = some ((digitsToNat ds : Nat) : Int) := by
  rcases ds with _ | ⟨c, cs⟩
  · exact absurd rfl hne
  · have hc := hds c (List.mem_cons_self c cs)
    have hw : jsWhitespace c = false := digit_not_jsWhitespace hc
    have hminus : ¬ (c = '-') := digit_ne_char hc (by decide)
    have hplus : ¬ (c = '+') := digit_ne_char hc (by decide)
    have htake : (c :: cs).takeWhile Char.isDigit = c :: cs :=
      takeWhile_all_eq hds
    simp [jsParseInt, List.dropWhile_cons, hw, hminus, hplus, htake]

/-- C5 amended: the two parsing paths agree when JWT_REFRESHLIFETIME is set
to a simple digit-run-plus-unit string over the units s, m, h, d (the only
shapes both parsers accept identically), but their fallback defaults differ:
with the variable unset the sweeper computes staleness from "7d"
(604800000 ms) while the codec signs with "1d" (86400000 ms), so a record
can stay store-valid for six days after its signature has expired. -/
theorem refresh_lifetimes_agree_only_with_shared_parse (ds : List Char) (u : Char)
    (cfg : Config) (hne : ds ≠ []) (hds : ∀ c ∈ ds, c.isDigit = true)
    (hu : u = 's' ∨ u = 'm' ∨ u = 'h' ∨ u = 'd')
    (hcfg : cfg.jwtRefreshLifetime = some (String.mk (ds ++ [u]))) :
    sweeperLifetimeMs cfg = codecLifetimeMs cfg
    ∧ sweeperLifetimeMs { cfg with jwtRefreshLifetime := none } = some 604800000
    ∧ codecLifetimeMs { cfg with jwtRefreshLifetime := none } = some 86400000 := by
  refine ⟨?_, by simp [sweeperLifetimeMs, REFRESH_LIFETIME_STRING]; decide, by
    simp [codecLifetimeMs, JWT_REFRESH_EXPIRATION_TIME]; decide⟩
  have hjs : jsParseInt ds = some ((digitsToNat ds : Nat) : Int) :=
    jsParseInt_digits ds hne hds
  have hempty : ds.isEmpty = false := by
    cases ds
    · exact absurd rfl hne
    · rfl
  have hud : u.isDigit = false := by
    obtain rfl | rfl | rfl | rfl := hu <;> decide
  have htake : (ds ++ [u]).takeWhile Char.isDigit = ds :=
    takeWhile_append_singleton ds u hds hud
  unfold sweeperLifetimeMs codecLifetimeMs REFRESH_LIFETIME_STRING
    JWT_REFRESH_EXPIRATION_TIME
  rw [hcfg]
  obtain rfl | rfl | rfl | rfl := hu <;>
    simp [parseDuration, msParse, htake, hjs, hempty, List.dropLast_concat] <;>
    ring

/-- C5 amended witness: the setting "2d" parses identically on both paths. -/
theorem refresh_lifetimes_agree_witness :
    sweeperLifetimeMs cfg2d = codecLifetimeMs cfg2d
    ∧ sweeperLifetimeMs cfgNoLifetime = some 604800000
    ∧ codecLifetimeMs cfgNoLifetime = some 86400000 :=
  refresh_lifetimes_agree_only_with_shared_parse ['2'] 'd' cfg2d
    (by decide) (by decide) (by decide) rfl

/-- C8: refuting the race claim on the code — under the legal interleaving in
which both handlers verify before either deletes, two concurrent rotations
of the same fresh token BOTH answer 200 (the second delete's P2025 failure
is swallowed because the controller ignores `invalidateRefreshToken`'s
result), instead of the required one success and one 401. -/
theorem rotate_race_double_success :
    (rotateRace cfg0 0 "jA" "jB" tok0 store0).1.status = 200
    ∧ (rotateRace cfg0 0 "jA" "jB" tok0 store0).2.1.status = 200 := by decide

/-- C1: one-shot rotation, sequential case — for a freshly issued refresh
token (record in store, signature valid, not yet expired), the first
refresh call succeeds with 200 and removes the token's id from the store,
and any subsequent refresh presenting the same token answers 401 (at any
later time and with any fresh jti), because the id is absent from the store
even where the signature still verifies. -/
theorem rotation_one_shot (cfg : Config) (asec rsec u j : String) (expiry : Int)
    (now now2 : Int) (store : Store) (rec : RefreshTokenRecord)
    (newJti newJti2 : String)
    (has : cfg.jwtSecret = some asec)
    (hrs : cfg.jwtRefreshSecret = some rsec)
    (hal : cfg.jwtLifetime = none)
    (hrl : cfg.jwtRefreshLifetime = none)
    (hexp : now < expiry)
    (hrec : findUnique store j = some rec)
    (hfresh : findUnique store newJti = none)
    (hne : newJti ≠ j) :
    (refreshAccessToken cfg now newJti
        (some (Token.signed { userId := u, jti := some j, exp := expiry } rsec))
        store).1.status = 200
    ∧ findUnique (refreshAccessToken cfg now newJti
        (some (Token.signed { userId := u, jti := some j, exp := expiry } rsec))
        store).2 j = none
    ∧ (refreshAccessToken cfg now2 newJti2
        (some (Token.signed { userId := u, jti := some j, exp := expiry } rsec))
        (refreshAccessToken cfg now newJti
          (some (Token.signed { userId := u, jti := some j, exp := expiry } rsec))
          store).2).1.status = 401 := by
  have hvt : verifyToken cfg now
      (Token.signed { userId := u, jti := some j, exp := expiry } rsec)
      TokenType.refresh
      = Except.ok { userId := u, jti := some j, exp := expiry } := by
    simp only [verifyToken, hrs, jwtVerify]
    rw [if_neg (fun hcon => hcon rfl), if_neg (not_le.mpr hexp)]
  have hfst := verifyRefreshToken_fst_ok hvt rfl hrec
  have hvr : verifyRefreshToken cfg now
      (Token.signed { userId := u, jti := some j, exp := expiry } rsec) store
      = (some u, store) := by
    rw [Prod.ext_iff]
    exact ⟨hfst, verifyRefreshToken_store_eq _ _ _ _⟩
  have hdel : prismaDelete store j
      = Except.ok (store.filter (fun r => r.id ≠ j)) :=
    prismaDelete_isSome (by rw [hrec]; rfl)
  have hinv : invalidateRefreshToken
      (Token.signed { userId := u, jti := some j, exp := expiry } rsec) store
      = (true, store.filter (fun r => r.id ≠ j)) := by
    simp [invalidateRefreshToken, jwtDecode, hdel]
  have h5m : msParse (JWT_EXPIRATION_TIME cfg) = some 300000 := by
    simp only [JWT_EXPIRATION_TIME, hal, Option.getD_none]
    decide
  have hacc : generateToken cfg now u
      = Except.ok (jwtSign { userId := u, jti := none, exp := now + 300000 } asec) := by
    simp [generateToken, has, h5m]
  have h1d : msParse (JWT_REFRESH_EXPIRATION_TIME cfg) = some 86400000 := by
    simp only [JWT_REFRESH_EXPIRATION_TIME, hrl, Option.getD_none]
    decide
  have hfresh1 : findUnique (store.filter (fun r => r.id ≠ j)) newJti = none :=
    findUnique_filter_none store _ newJti hfresh
  have hgen := generateRefreshToken_persists cfg now newJti u
    (store.filter (fun r => r.id ≠ j)) rsec 86400000 hrs hfresh1 h1d
  have hrun : refreshAccessToken cfg now newJti
      (some (Token.signed { userId := u, jti := some j, exp := expiry } rsec)) store
      = ({ status := 200, message := "token" },
         { id := newJti, userId := u, createdAt := now }
           :: store.filter (fun r => r.id ≠ j)) := by
    simp only [refreshAccessToken, rotateAfterVerify, hvr, hinv, hacc, hgen]
  refine ⟨by rw [hrun], ?_, ?_⟩
  · rw [hrun]
    rw [findUnique_cons_ne _ _ _ hne]
    exact findUnique_filter_ne_self store j
  · rw [hrun]
    have hlook : findUnique
        ({ id := newJti, userId := u, createdAt := now }
          :: store.filter (fun r => r.id ≠ j)) j = none := by
      rw [findUnique_cons_ne _ _ _ hne]
      exact findUnique_filter_ne_self store j
    have hnone : (verifyRefreshToken cfg now2
        (Token.signed { userId := u, jti := some j, exp := expiry } rsec)
        ({ id := newJti, userId := u, createdAt := now }
          :: store.filter (fun r => r.id ≠ j))).1 = none := by
      rcases le_or_lt expiry now2 with hle | hlt
      · have hvt2 : verifyToken cfg now2
            (Token.signed { userId := u, jti := some j, exp := expiry } rsec)
            TokenType.refresh
            = Except.error "TokenExpiredError: jwt expired" := by
          simp only [verifyToken, hrs, jwtVerify]
          rw [if_neg (fun hcon => hcon rfl), if_pos hle]
        exact verifyRefreshToken_fst_error _ hvt2
      · have hvt2 : verifyToken cfg now2
            (Token.signed { userId := u, jti := some j, exp := expiry } rsec)
            TokenType.refresh
            = Except.ok { userId := u, jti := some j, exp := expiry } := by
          simp only [verifyToken, hrs, jwtVerify]
          rw [if_neg (fun hcon => hcon rfl), if_neg (not_le.mpr hlt)]
        exact verifyRefreshToken_fst_norecord hvt2 rfl hlook
    have hpair : verifyRefreshToken cfg now2
        (Token.signed { userId := u, jti := some j, exp := expiry } rsec)
        ({ id := newJti, userId := u, createdAt := now }
          :: store.filter (fun r => r.id ≠ j))
        = (none,
           { id := newJti, userId := u, createdAt := now }
             :: store.filter (fun r => r.id ≠ j)) := by
      rw [Prod.ext_iff]
      exact ⟨hnone, verifyRefreshToken_store_eq _ _ _ _⟩
    simp only [refreshAccessToken]
    rw [hpair]
    rfl

/-- C1 witness: the concrete fresh token tok0 over store0 rotates once with
200, its id j1 is gone afterwards, and a second presentation answers 401. -/
theorem rotation_one_shot_witness :
    (refreshAccessToken cfg0 0 "j2"
        (some (Token.signed { userId := "u1", jti := some "j1", exp := 86400000 } "rs"))
        store0).1.status = 200
    ∧ findUnique (refreshAccessToken cfg0 0 "j2"
        (some (Token.signed { userId := "u1", jti := some "j1", exp := 86400000 } "rs"))
        store0).2 "j1" = none
    ∧ (refreshAccessToken cfg0 0 "j3"
        (some (Token.signed { userId := "u1", jti := some "j1", exp := 86400000 } "rs"))
        (refreshAccessToken cfg0 0 "j2"
          (some (Token.signed { userId := "u1", jti := some "j1", exp := 86400000 } "rs"))
          store0).2).1.status = 401 :=
  rotation_one_shot cfg0 "as" "rs" "u1" "j1" 86400000 0 0 store0
    { id := "j1", userId := "u1", createdAt := 0 } "j2" "j3"
    rfl rfl rfl rfl (by decide) (by decide) (by decide) (by decide)

end JwtAuth
